import Mathlib

set_option maxRecDepth 20000

/-!
Shallow embedding of `zoo/assembly/martis_game/envs/martis_game_lightzero_env.py`
(class `MartisGameEnv`), the LightZero adapter for Marti's Game.

The external Game engine (`game.py`, providing `Game`, `NUM_ACTIONS` and
`MAX_LINES`) is not part of the sources; following the spec it is treated as a
black box: an abstract state type together with `reset`, `state` and `step`
functions and the two integer constants.

Conventions of the embedding:
 - Python float rewards are modelled as `Rat`; the accumulator update
   `self._eval_episode_return += rew` is the same left fold either way.
 - `self._eval_episode_return` does not exist until the first `reset()`
   assigns it, so it is modelled as an `Option Rat` that is `none` after
   `__init__`; `step` returns `none` (an `AttributeError`) when the
   accumulator is absent.
 - `cfg.replay_path` on an `EasyDict` missing that key raises
   `AttributeError`, so construction returns an `Option`.
 - numpy arrays, Python scalars and Python lists that may appear as actions
   are modelled by the inductive `PyAction`; `ndarray.squeeze` removes the
   axes of size 1 from the shape.
 - the `info` dict is an association list from strings to values; Python
   dict assignment overwrites the first matching key or appends.
-/

/-- A Python value that can be passed to `step` as an action: an `int`
scalar, a Python list of ints, or a numpy `ndarray` with a shape and flat
integer data. -/
inductive PyAction : Type where
  | scalar (n : Int)
  | pylist (xs : List Int)
  | ndarray (shape : List Nat) (data : List Int)
deriving DecidableEq, Repr

/-- numpy `ndarray.squeeze`: removes all axes of length 1 from the shape
(on non-arrays, Python scalars and lists have no `squeeze`; the adapter only
ever calls it on an ndarray, so we leave other values unchanged). -/
def PyAction.squeeze : PyAction → PyAction
  | .ndarray shape data => .ndarray (shape.filter (fun d => d ≠ 1)) data
  | a => a

/-- The guard `isinstance(action, np.ndarray) and action.shape == (1,)` from
`MartisGameEnv.step`. -/
def PyAction.isShape1Ndarray : PyAction → Bool
  | .ndarray shape _ => shape = [1]
  | _ => false

/-- The action normalization performed at the top of `MartisGameEnv.step`:
`if isinstance(action, np.ndarray) and action.shape == (1,): action = action.squeeze()`. -/
def normalizeAction (a : PyAction) : PyAction :=
  if a.isShape1Ndarray then a.squeeze else a

/-- A value stored in the `info` mapping: either a number (the adapter itself
only ever stores the numeric episode return) or an opaque engine-provided
value. -/
inductive InfoVal : Type where
  | num (q : Rat)
  | other (tag : Nat)
deriving DecidableEq, Repr

/-- The `info` mapping returned by the engine and decorated by the adapter. -/
def Info : Type := List (String × InfoVal)

instance : DecidableEq Info :=
  inferInstanceAs (DecidableEq (List (String × InfoVal)))

/-- Python dict lookup (`key in info` / `info[key]`): first matching entry. -/
def Info.lookup (info : Info) (k : String) : Option InfoVal :=
  match info with
  | [] => none
  | (k', v) :: rest => if k' = k then some v else Info.lookup rest k

/-- Python dict assignment `info[k] = v`: overwrite the entry for `k` if
present, otherwise append it. -/
def Info.set (info : Info) (k : String) (v : InfoVal) : Info :=
  match info with
  | [] => [(k, v)]
  | (k', v') :: rest => if k' = k then (k, v) :: rest else (k', v') :: Info.set rest k v

/-- Result of one engine step: `game.step(action)` returns
`(obs, rew, terminated, truncated, info)`; the engine's own state advances
as a side effect, modelled by the `next` field. -/
structure EngineStepResult (σ Obs : Type) : Type where
  obs : Obs
  rew : Rat
  terminated : Bool
  truncated : Bool
  info : Info
  next : σ
deriving DecidableEq

/-- The external Game engine, a black box behind the interface the adapter
uses: constants `NUM_ACTIONS` and `MAX_LINES`, a fresh state (`Game()`),
`reset()`, `state()` and `step(action)`. The adapter forwards the
(possibly squeezed) Python action object to `step` unchanged. -/
structure GameEngine (σ Obs : Type) : Type where
  NUM_ACTIONS : Nat
  MAX_LINES : Nat
  init : σ
  reset : σ → σ
  state : σ → Obs
  step : σ → PyAction → EngineStepResult σ Obs

/-- The adapter's instance state: the attributes `MartisGameEnv.__init__`,
`reset`, `step`, `seed` and `close` read or write. Spaces are recorded by
the data that determines them: the `MultiBinary` size, the `Discrete`
cardinality and its seed, and the `Box` bounds. `eval_episode_return`,
`seed_val` and `dynamic_seed` are `Option`s because the Python attributes
do not exist until first assigned. -/
structure MartisGameEnv (σ : Type) : Type where
  replay_path : Option String
  init_flag : Bool
  continuous : Bool
  observation_space : Nat
  action_space_n : Nat
  action_space_seed : Nat
  reward_space_low : Rat
  reward_space_high : Rat
  eval_episode_return : Option Rat
  seed_val : Option Int
  dynamic_seed : Option Bool
  game : σ
deriving DecidableEq

/-- The configuration dictionary: `env_id` and, when the key is present,
`replay_path` (whose value may itself be `None`). The outer `Option` is
key presence in the `EasyDict`. -/
structure EnvConfig : Type where
  env_id : String
  replay_path : Option (Option String)
deriving DecidableEq

/-- `MartisGameEnv.__init__(cfg)`: reads `cfg.replay_path` unconditionally
(an absent key is an `AttributeError`, modelled by `none`), declares
`MultiBinary(1280)`, `Discrete(NUM_ACTIONS)` seeded with 0, and
`Box(0.0, 1.0)`, and instantiates the engine. -/
def MartisGameEnv.construct {σ Obs : Type} (E : GameEngine σ Obs) (cfg : EnvConfig) :
    Option (MartisGameEnv σ) :=
  match cfg.replay_path with
  | none => none
  | some rp => some {
      replay_path := rp
      init_flag := false
      continuous := false
      observation_space := 1280
      action_space_n := E.NUM_ACTIONS
      action_space_seed := 0
      reward_space_low := 0
      reward_space_high := 1
      eval_episode_return := none
      seed_val := none
      dynamic_seed := none
      game := E.init }

/-- `MartisGameEnv.my_space`: `gym.spaces.MultiBinary(MAX_LINES * 64)`,
recorded by its size. -/
def MartisGameEnv.my_space {σ Obs : Type} (E : GameEngine σ Obs) : Nat :=
  E.MAX_LINES * 64

/-- The observation record `{'observation': obs, 'action_mask': mask,
'to_play': -1}` built by `reset` and `step`. -/
structure ObsRecord (Obs : Type) : Type where
  observation : Obs
  action_mask : List Nat
  to_play : Int
deriving DecidableEq

/-- `ding.envs.BaseEnvTimestep`: `(obs, reward, done, info)`. -/
structure BaseEnvTimestep (Obs : Type) : Type where
  obs : ObsRecord Obs
  reward : Rat
  done : Bool
  info : Info
deriving DecidableEq

/-- `MartisGameEnv.reset()`: resets the engine, reads its state, re-declares
the observation space as `my_space()`, zeroes the return accumulator, and
returns the observation record with an all-ones action mask and
`to_play = -1`. -/
def MartisGameEnv.reset {σ Obs : Type} (env : MartisGameEnv σ) (E : GameEngine σ Obs) :
    ObsRecord Obs × MartisGameEnv σ :=
  let game := E.reset env.game
  let obs := E.state game
  let env' := { env with
    game := game
    observation_space := MartisGameEnv.my_space E
    eval_episode_return := some 0 }
  let action_mask := List.replicate env'.action_space_n 1
  (⟨obs, action_mask, -1⟩, env')

/-- `MartisGameEnv.step(action)`: squeezes a shape-`(1,)` ndarray action,
delegates to the engine, merges the termination flags, updates the
accumulator, stores the accumulator into `info['eval_episode_return']`
exactly when done, and wraps the observation. Returns `none` when the
accumulator attribute does not exist yet (no `reset()` since construction:
Python raises `AttributeError` on `+=`). -/
def MartisGameEnv.step {σ Obs : Type} (env : MartisGameEnv σ) (E : GameEngine σ Obs)
    (action : PyAction) : Option (BaseEnvTimestep Obs × MartisGameEnv σ) :=
  match env.eval_episode_return with
  | none => none
  | some acc =>
    let action' := normalizeAction action
    let r := E.step env.game action'
    let done := r.terminated || r.truncated
    let acc' := acc + r.rew
    let info' := if done then r.info.set "eval_episode_return" (InfoVal.num acc') else r.info
    let action_mask := List.replicate env.action_space_n 1
    some (⟨⟨r.obs, action_mask, -1⟩, r.rew, done, info'⟩,
      { env with eval_episode_return := some acc', game := r.next })

/-- `MartisGameEnv.close()`: no engine teardown (the guarded branch is a
no-op placeholder), then clears the initialization flag. Total: it never
fails, whatever the prior state. -/
def MartisGameEnv.close {σ : Type} (env : MartisGameEnv σ) : MartisGameEnv σ :=
  { env with init_flag := false }

/-- `MartisGameEnv.seed(seed, dynamic_seed)`: records both values (the
process-wide `np.random.seed` side effect has no observable adapter
state). -/
def MartisGameEnv.seed {σ : Type} (env : MartisGameEnv σ) (s : Int) (dynamic : Bool) :
    MartisGameEnv σ :=
  { env with seed_val := some s, dynamic_seed := some dynamic }

/-- Running a sequence of `step` calls, collecting the timesteps; `none` as
soon as one call fails. -/
def runSteps {σ Obs : Type} (E : GameEngine σ Obs) :
    MartisGameEnv σ → List PyAction → Option (List (BaseEnvTimestep Obs) × MartisGameEnv σ)
  | env, [] => some ([], env)
  | env, a :: as =>
    match env.step E a with
    | none => none
    | some (t, env') =>
      match runSteps E env' as with
      | none => none
      | some (ts, env'') => some (t :: ts, env'')

/-- The numeric action index a Python numeric object denotes when used as an
index: the scalar itself, or the single element of a one-element container
(`0` as a don't-care placeholder otherwise). -/
def PyAction.indexValue : PyAction → Int
  | .scalar n => n
  | .pylist xs => xs.headD 0
  | .ndarray _ data => data.headD 0

/-- Modelled from the spec: the Game engine (`game.py`, which provides
`Game.step`) is not among the source files. Per §4.1 the adapter "accepts
either a scalar action index or a length-1 numeric container holding that
index — the latter is normalized by collapsing to the scalar before use",
and per §6 the engine interface consumes that action index; so the engine's
transition depends on the action object only through the numeric index it
denotes. `indexEngine g` is the engine whose transition on states is `g`
applied to that index. -/
def indexEngine {σ Obs : Type} (numActions maxLines : Nat) (i0 : σ)
    (resetFn : σ → σ) (stateFn : σ → Obs)
    (g : σ → Int → EngineStepResult σ Obs) : GameEngine σ Obs :=
  ⟨numActions, maxLines, i0, resetFn, stateFn, fun s a => g s a.indexValue⟩

/-- A tiny concrete engine used to evaluate the development on closed
inputs: three actions, `MAX_LINES = 21`, trivial state, every step yields
reward 1 and terminates with an empty `info`. -/
def unitEngine : GameEngine Unit Unit where
  NUM_ACTIONS := 3
  MAX_LINES := 21
  init := ()
  reset := fun _ => ()
  state := fun _ => ()
  step := fun _ _ => ⟨(), 1, true, false, [], ()⟩

/-- A configuration whose `replay_path` key is present (with value `None`). -/
def sampleCfg : EnvConfig :=
  ⟨"MartisGame-v0", some none⟩

/-- The adapter state `MartisGameEnv(sampleCfg)` produces. -/
def sampleEnv0 : MartisGameEnv Unit where
  replay_path := none
  init_flag := false
  continuous := false
  observation_space := 1280
  action_space_n := 3
  action_space_seed := 0
  reward_space_low := 0
  reward_space_high := 1
  eval_episode_return := none
  seed_val := none
  dynamic_seed := none
  game := ()

/-- The adapter state after `reset()` on `sampleEnv0`. -/
def sampleEnvReset : MartisGameEnv Unit :=
  (sampleEnv0.reset unitEngine).2

/-- The timestep one `step` call from `sampleEnvReset` returns. -/
def sampleTimestep : BaseEnvTimestep Unit :=
  ⟨⟨(), List.replicate 3 1, -1⟩, 1, true, [("eval_episode_return", InfoVal.num 1)]⟩

/-- The adapter state after that `step` call. -/
def sampleEnvAfter : MartisGameEnv Unit :=
  { sampleEnvReset with eval_episode_return := some 1 }

/-! ### Helper lemmas -/

lemma Info.lookup_set_self (info : Info) (k : String) (v : InfoVal) :
    (info.set k v).lookup k = some v := by
  induction info with
  | nil => simp [Info.set, Info.lookup]
  | cons p rest ih =>
    obtain ⟨k', v'⟩ := p
    by_cases h : k' = k
    · simp [Info.set, Info.lookup, h]
    · simp [Info.set, Info.lookup, h, ih]

lemma step_eq_some {σ Obs : Type} {E : GameEngine σ Obs} {env : MartisGameEnv σ}
    {a : PyAction} {ts : BaseEnvTimestep Obs} {env' : MartisGameEnv σ}
    (h : env.step E a = some (ts, env')) :
    ∃ acc : Rat, env.eval_episode_return = some acc ∧
      ts.obs.observation = (E.step env.game (normalizeAction a)).obs ∧
      ts.obs.action_mask = List.replicate env.action_space_n 1 ∧
      ts.obs.to_play = -1 ∧
      ts.reward = (E.step env.game (normalizeAction a)).rew ∧
      ts.done = ((E.step env.game (normalizeAction a)).terminated
        || (E.step env.game (normalizeAction a)).truncated) ∧
      ts.info = (if ts.done
        then (E.step env.game (normalizeAction a)).info.set "eval_episode_return"
          (InfoVal.num (acc + ts.reward))
        else (E.step env.game (normalizeAction a)).info) ∧
      env' = { env with
        eval_episode_return := some (acc + (E.step env.game (normalizeAction a)).rew)
        game := (E.step env.game (normalizeAction a)).next } := by
  cases hacc : env.eval_episode_return with
  | none => simp [MartisGameEnv.step, hacc] at h
  | some acc =>
    simp only [MartisGameEnv.step, hacc] at h
    injection h with h0
    rw [Prod.mk.injEq] at h0
    obtain ⟨hA, hB⟩ := h0
    subst hA
    subst hB
    exact ⟨acc, rfl, rfl, rfl, rfl, rfl, rfl, rfl, rfl⟩

lemma runSteps_acc {σ Obs : Type} (E : GameEngine σ Obs) (as : List PyAction) :
    ∀ (env : MartisGameEnv σ) (acc : Rat),
      env.eval_episode_return = some acc →
      ∃ ts env', runSteps E env as = some (ts, env') ∧
        env'.eval_episode_return = some (acc + (ts.map BaseEnvTimestep.reward).sum) := by
  induction as with
  | nil =>
    intro env acc h
    exact ⟨[], env, rfl, by simpa using h⟩
  | cons a as ih =>
    intro env acc h
    cases hs : env.step E a with
    | none => simp [MartisGameEnv.step, h] at hs
    | some p =>
      obtain ⟨t, env1⟩ := p
      obtain ⟨acc0, hacc0, -, -, -, hrew, -, -, henv1⟩ := step_eq_some hs
      rw [h] at hacc0
      injection hacc0 with he
      subst he
      have h1 : env1.eval_episode_return =
          some (acc + (E.step env.game (normalizeAction a)).rew) := by
        rw [henv1]
      obtain ⟨ts, env'', hrun, hacc2⟩ := ih env1 _ h1
      refine ⟨t :: ts, env'', ?_, ?_⟩
      · simp [runSteps, hs, hrun]
      · rw [hacc2]
        simp [hrew, add_assoc]

/-- C1: the episode-return accumulator equals 0 immediately after `reset()`,
and after any sequence of k `step()` calls following a `reset()` it equals
the sum of the rewards the engine returned for steps 1..k (the adapter
passes each engine reward through to the timestep unchanged). -/
theorem C1_episode_return_accumulator {σ Obs : Type} (E : GameEngine σ Obs)
    (env : MartisGameEnv σ) (as : List PyAction)
    (ts : List (BaseEnvTimestep Obs)) (env' : MartisGameEnv σ)
    (h : runSteps E (env.reset E).2 as = some (ts, env')) :
    (env.reset E).2.eval_episode_return = some 0 ∧
    env'.eval_episode_return = some ((ts.map BaseEnvTimestep.reward).sum) := by
  have h0 : (env.reset E).2.eval_episode_return = some 0 := rfl
  obtain ⟨ts0, env0, hrun, hacc⟩ := runSteps_acc E as (env.reset E).2 0 h0
  rw [h] at hrun
  injection hrun with hp
  rw [Prod.mk.injEq] at hp
  obtain ⟨h1, h2⟩ := hp
  subst h1
  subst h2
  exact ⟨h0, by simpa using hacc⟩

theorem C1_witness :
    (sampleEnv0.reset unitEngine).2.eval_episode_return = some 0 ∧
    sampleEnvAfter.eval_episode_return =
      some (([sampleTimestep].map BaseEnvTimestep.reward).sum) :=
  C1_episode_return_accumulator unitEngine sampleEnv0 [PyAction.scalar 0]
    [sampleTimestep] sampleEnvAfter (by with_unfolding_all decide)

/-- C2: for every call to `step()`, the `done` flag of the returned timestep
equals the logical OR of the `terminated` and `truncated` flags the engine
returned for that step. -/
theorem C2_done_merges_flags {σ Obs : Type} (E : GameEngine σ Obs)
    (env : MartisGameEnv σ) (a : PyAction) (ts : BaseEnvTimestep Obs)
    (env' : MartisGameEnv σ) (h : env.step E a = some (ts, env')) :
    ts.done = ((E.step env.game (normalizeAction a)).terminated
      || (E.step env.game (normalizeAction a)).truncated) := by
  obtain ⟨acc, -, -, -, -, -, hdone, -, -⟩ := step_eq_some h
  exact hdone

theorem C2_witness :
    sampleTimestep.done =
      ((unitEngine.step sampleEnvReset.game (normalizeAction (PyAction.scalar 0))).terminated
        || (unitEngine.step sampleEnvReset.game (normalizeAction (PyAction.scalar 0))).truncated) :=
  C2_done_merges_flags unitEngine sampleEnvReset (PyAction.scalar 0) sampleTimestep
    sampleEnvAfter (by with_unfolding_all decide)

/-- C3: for every call to `step()` whose engine `info` does not itself carry
the key, the returned `info` contains `eval_episode_return` iff `done` is
true, and when present its value is the accumulator's value at that step
(cumulative reward including this step's reward). -/
theorem C3_info_key_iff_done {σ Obs : Type} (E : GameEngine σ Obs)
    (env : MartisGameEnv σ) (a : PyAction) (ts : BaseEnvTimestep Obs)
    (env' : MartisGameEnv σ) (h : env.step E a = some (ts, env'))
    (hclean : (E.step env.game (normalizeAction a)).info.lookup "eval_episode_return" = none) :
    ((ts.info.lookup "eval_episode_return").isSome ↔ ts.done = true) ∧
    (ts.done = true →
      ts.info.lookup "eval_episode_return" = env'.eval_episode_return.map InfoVal.num) := by
  obtain ⟨acc, hacc, -, -, -, hrew, hdone, hinfo, henv'⟩ := step_eq_some h
  constructor
  · rw [hinfo]
    cases hb : ts.done with
    | false => simp [hclean]
    | true => simp [Info.lookup_set_self]
  · intro hd
    rw [hinfo]
    simp only [hd, if_true]
    rw [Info.lookup_set_self, henv', hrew]
    rfl

theorem C3_witness :
    ((sampleTimestep.info.lookup "eval_episode_return").isSome ↔ sampleTimestep.done = true) ∧
    (sampleTimestep.done = true →
      sampleTimestep.info.lookup "eval_episode_return" =
        sampleEnvAfter.eval_episode_return.map InfoVal.num) :=
  C3_info_key_iff_done unitEngine sampleEnvReset (PyAction.scalar 0) sampleTimestep
    sampleEnvAfter (by with_unfolding_all decide) (by decide)

/-- C4: every observation record returned by `reset()` or `step()` carries an
`action_mask` whose length equals the action space's cardinality with every
entry equal to 1, and a `to_play` field equal to `-1`. -/
theorem C4_action_mask_all_ones {σ Obs : Type} (E : GameEngine σ Obs)
    (env : MartisGameEnv σ) (a : PyAction) (ts : BaseEnvTimestep Obs)
    (env' : MartisGameEnv σ) (h : env.step E a = some (ts, env')) :
    ((env.reset E).1.action_mask.length = env.action_space_n ∧
      (∀ x ∈ (env.reset E).1.action_mask, x = 1) ∧
      (env.reset E).1.to_play = -1) ∧
    (ts.obs.action_mask.length = env.action_space_n ∧
      (∀ x ∈ ts.obs.action_mask, x = 1) ∧
      ts.obs.to_play = -1) := by
  obtain ⟨acc, -, -, hmask, hplay, -, -, -, -⟩ := step_eq_some h
  refine ⟨⟨?_, ?_, rfl⟩, ?_, ?_, hplay⟩
  · simp [MartisGameEnv.reset]
  · intro x hx
    simp [MartisGameEnv.reset] at hx
    exact hx.2
  · rw [hmask]
    simp
  · intro x hx
    rw [hmask] at hx
    exact List.eq_of_mem_replicate hx

theorem C4_witness :
    (((sampleEnvReset.reset unitEngine).1.action_mask.length = sampleEnvReset.action_space_n ∧
      (∀ x ∈ (sampleEnvReset.reset unitEngine).1.action_mask, x = 1) ∧
      (sampleEnvReset.reset unitEngine).1.to_play = -1) ∧
    (sampleTimestep.obs.action_mask.length = sampleEnvReset.action_space_n ∧
      (∀ x ∈ sampleTimestep.obs.action_mask, x = 1) ∧
      sampleTimestep.obs.to_play = -1)) :=
  C4_action_mask_all_ones unitEngine sampleEnvReset (PyAction.scalar 0) sampleTimestep
    sampleEnvAfter (by with_unfolding_all decide)

/-- C5: from identical engine and adapter state, `step` on the scalar action
`3` and `step` on a length-1 ndarray holding `3` produce identical results
(timestep and successor state), for any engine transition `g` on action
indices. -/
theorem C5_scalar_vs_length1_container {σ Obs : Type} (numActions maxLines : Nat)
    (i0 : σ) (resetFn : σ → σ) (stateFn : σ → Obs)
    (g : σ → Int → EngineStepResult σ Obs) (env : MartisGameEnv σ) :
    env.step (indexEngine numActions maxLines i0 resetFn stateFn g) (PyAction.scalar 3) =
      env.step (indexEngine numActions maxLines i0 resetFn stateFn g)
        (PyAction.ndarray [1] [3]) := by
  cases hacc : env.eval_episode_return with
  | none => simp [MartisGameEnv.step, hacc]
  | some acc => rfl

/-- C6: constructing the adapter fails (no instance is produced) exactly when
the configuration lacks the `replay_path` field, which `__init__` reads
unconditionally. -/
theorem C6_missing_replay_path_fatal {σ Obs : Type} (E : GameEngine σ Obs)
    (cfg : EnvConfig) :
    MartisGameEnv.construct E cfg = none ↔ cfg.replay_path = none := by
  cases h : cfg.replay_path <;> simp [MartisGameEnv.construct, h]

/-- C7: the observation space declared at construction has the literal size
1280; every `reset()` re-declares it to `MAX_LINES * 64`; and (with the
engine constant `MAX_LINES` distinct from 20, as the spec's distinctness
statement requires) the two sizes differ. -/
theorem C7_observation_space_sizes {σ Obs : Type} (E : GameEngine σ Obs)
    (cfg : EnvConfig) (env env0 : MartisGameEnv σ)
    (hcons : MartisGameEnv.construct E cfg = some env)
    (hml : E.MAX_LINES ≠ 20) :
    env.observation_space = 1280 ∧
    (env0.reset E).2.observation_space = E.MAX_LINES * 64 ∧
    (env0.reset E).2.observation_space ≠ env.observation_space := by
  have h1 : env.observation_space = 1280 := by
    cases h : cfg.replay_path with
    | none => simp [MartisGameEnv.construct, h] at hcons
    | some rp =>
      simp [MartisGameEnv.construct, h] at hcons
      rw [← hcons]
  have h2 : (env0.reset E).2.observation_space = E.MAX_LINES * 64 := rfl
  refine ⟨h1, h2, ?_⟩
  rw [h1, h2]
  omega

theorem C7_witness :
    sampleEnv0.observation_space = 1280 ∧
    (sampleEnv0.reset unitEngine).2.observation_space = unitEngine.MAX_LINES * 64 ∧
    (sampleEnv0.reset unitEngine).2.observation_space ≠ sampleEnv0.observation_space :=
  C7_observation_space_sizes unitEngine sampleCfg sampleEnv0 sampleEnv0
    (by with_unfolding_all decide) (by decide)

/-- C8: `close()` is total (never fails) from any adapter state, however many
times it is called and whether or not the adapter was initialized; after
every call the initialized flag is `false`, and a second call changes
nothing. -/
theorem C8_close_forgiving {σ : Type} (env : MartisGameEnv σ) :
    (env.close).init_flag = false ∧
    ((env.close).close).init_flag = false ∧
    (env.close).close = env.close :=
  ⟨rfl, rfl, rfl⟩

/-- C9: the `step` normalization collapses exactly the ndarray of shape
`(1,)` (squeezing it to a 0-dim array holding the same element); a scalar, a
Python list, and an ndarray of any other shape pass through unchanged; and
`step` consults the engine only through the normalized action
(normalization is idempotent, so stepping on the normalized action is the
same call). -/
theorem C9_normalization_exactly_shape1 :
    (∀ n : Int, normalizeAction (PyAction.scalar n) = PyAction.scalar n) ∧
    (∀ xs : List Int, normalizeAction (PyAction.pylist xs) = PyAction.pylist xs) ∧
    (∀ data : List Int,
      normalizeAction (PyAction.ndarray [1] data) = PyAction.ndarray [] data) ∧
    (∀ (shape : List Nat) (data : List Int), shape ≠ [1] →
      normalizeAction (PyAction.ndarray shape data) = PyAction.ndarray shape data) ∧
    (∀ (σ Obs : Type) (E : GameEngine σ Obs) (env : MartisGameEnv σ) (a : PyAction),
      env.step E a = env.step E (normalizeAction a)) := by
  refine ⟨fun n => rfl, fun xs => rfl, fun data => rfl, fun shape data h => ?_, ?_⟩
  · simp [normalizeAction, PyAction.isShape1Ndarray, h]
  · intro σ Obs E env a
    have hidem : normalizeAction (normalizeAction a) = normalizeAction a := by
      cases a with
      | scalar n => rfl
      | pylist xs => rfl
      | ndarray shape data =>
        by_cases h : shape = [1]
        · subst h
          rfl
        · simp [normalizeAction, PyAction.isShape1Ndarray, h]
    cases hacc : env.eval_episode_return with
    | none => simp [MartisGameEnv.step, hacc]
    | some acc => simp [MartisGameEnv.step, hacc, hidem]

theorem C9_witness :
    normalizeAction (PyAction.scalar 3) = PyAction.scalar 3 ∧
    normalizeAction (PyAction.pylist [3]) = PyAction.pylist [3] ∧
    normalizeAction (PyAction.ndarray [1] [3]) = PyAction.ndarray [] [3] ∧
    normalizeAction (PyAction.ndarray [2] [3, 4]) = PyAction.ndarray [2] [3, 4] :=
  ⟨C9_normalization_exactly_shape1.1 3,
   C9_normalization_exactly_shape1.2.1 [3],
   C9_normalization_exactly_shape1.2.2.1 [3],
   C9_normalization_exactly_shape1.2.2.2.1 [2] [3, 4] (by decide)⟩

/-- C10: every successful `step()` call leaves all adapter-instance fields
other than the episode-return accumulator (and the engine object's own
state) unchanged: replay path, observation space, action space (cardinality
and seed), reward space bounds, stored seed, dynamic-seed flag, and
initialized flag. -/
theorem C10_step_frame {σ Obs : Type} (E : GameEngine σ Obs) (env : MartisGameEnv σ)
    (a : PyAction) (ts : BaseEnvTimestep Obs) (env' : MartisGameEnv σ)
    (h : env.step E a = some (ts, env')) :
    env'.replay_path = env.replay_path ∧
    env'.observation_space = env.observation_space ∧
    env'.action_space_n = env.action_space_n ∧
    env'.action_space_seed = env.action_space_seed ∧
    env'.reward_space_low = env.reward_space_low ∧
    env'.reward_space_high = env.reward_space_high ∧
    env'.seed_val = env.seed_val ∧
    env'.dynamic_seed = env.dynamic_seed ∧
    env'.init_flag = env.init_flag := by
  obtain ⟨acc, -, -, -, -, -, -, -, henv'⟩ := step_eq_some h
  subst henv'
  exact ⟨rfl, rfl, rfl, rfl, rfl, rfl, rfl, rfl, rfl⟩

theorem C10_witness :
    sampleEnvAfter.replay_path = sampleEnvReset.replay_path ∧
    sampleEnvAfter.observation_space = sampleEnvReset.observation_space ∧
    sampleEnvAfter.action_space_n = sampleEnvReset.action_space_n ∧
    sampleEnvAfter.action_space_seed = sampleEnvReset.action_space_seed ∧
    sampleEnvAfter.reward_space_low = sampleEnvReset.reward_space_low ∧
    sampleEnvAfter.reward_space_high = sampleEnvReset.reward_space_high ∧
    sampleEnvAfter.seed_val = sampleEnvReset.seed_val ∧
    sampleEnvAfter.dynamic_seed = sampleEnvReset.dynamic_seed ∧
    sampleEnvAfter.init_flag = sampleEnvReset.init_flag :=
  C10_step_frame unitEngine sampleEnvReset (PyAction.scalar 0) sampleTimestep
    sampleEnvAfter (by with_unfolding_all decide)
